import Mathlib

/-
Verification of the distil-timeseries-loader primitives.

Shallow embedding of `timeseriesloader/timeseries_loader.py` (namespace
`Loader`) and `timeseriesloader/timeseries_formatter.py` (namespace
`Formatter`).  Column metadata queried from the d3m metadata store is
modelled as a record of optional entries: `none` models a key that is
absent from the queried dict (so that subscripting it raises `KeyError`,
as Python does), while `some` models a present entry.  Python exceptions
are modelled by the `PyError` type and fallible code returns
`Except PyError`.  The filesystem consulted by `pandas.read_csv` is an
explicit function from paths to optional CSV tables; a `none` result
models an unreadable or missing file (pandas raises an I/O error there).
-/

deriving instance DecidableEq for Except

namespace TSL

/-- Structural types of d3m columns as far as the predicates care:
`str` or anything else. -/
inductive PyType where
  | str
  | other
deriving DecidableEq

/-- A `foreign_key` metadata entry: `{'resource_id': ..., 'column_index': ...}`. -/
structure ForeignKey where
  resource_id : String
  column_index : Nat
deriving DecidableEq

/-- The result of querying a column selector on a d3m metadata store.
Every field is optional: `none` means the key is absent from the queried
dict, in which case Python subscripting raises `KeyError` while `.get`
returns the supplied default.  The `foreign_key` entry is doubly
optional because the code at `timeseries_formatter.py:106` compares the
subscripted value against `None`. -/
structure ColumnMetadata where
  structural_type : Option PyType := none
  semantic_types : Option (List String) := none
  media_types : Option (List String) := none
  foreign_key : Option (Option ForeignKey) := none
  location_base_uris : Option (List String) := none
deriving DecidableEq

/-- Truthiness of the queried dict: `not column_metadata` in Python is
true exactly when the dict has no entries. -/
def ColumnMetadata.isEmptyDict (m : ColumnMetadata) : Bool :=
  m.structural_type.isNone && m.semantic_types.isNone && m.media_types.isNone &&
    m.foreign_key.isNone && m.location_base_uris.isNone

/-- Python exceptions raised by the two primitives. -/
inductive PyError where
  | invalidArgumentValue (msg : String)
  | keyError (key : String)
  | indexError
  | typeError (msg : String)
  | unboundLocal (name : String)
  | ioError (path : String)
deriving DecidableEq

/-- The error taxonomy of the specification (spec section 7):
configuration errors are an invalid or absent reference column
(`exceptions.InvalidArgumentValueError`), a missing base-URI
annotation (the `KeyError` raised by subscripting
`location_base_uris`), or a missing main-resource designation (also
`InvalidArgumentValueError`). -/
def PyError.isConfigurationError : PyError → Bool
  | .invalidArgumentValue _ => true
  | .keyError "location_base_uris" => true
  | _ => false

/-- I/O errors per the specification taxonomy: raised at the point of a
file read. -/
def PyError.isIOError : PyError → Bool
  | .ioError _ => true
  | _ => false

/-- A CSV file as loaded by `pandas.read_csv`: a header row naming the
columns and the data rows. -/
structure CsvFile where
  header : List String
  rows : List (List String)
deriving DecidableEq

/-- Column `j` of a CSV table.  After `pandas.read_csv(...).transpose()`
this is row `j` of the transposed frame (`timeseries_loader.py:136-141`). -/
def CsvFile.col (c : CsvFile) (j : Nat) : List String :=
  c.rows.map (fun r => r.getD j "")

/-- The filesystem seen by `pandas.read_csv`: `none` models a missing,
unreadable or malformed file. -/
def FileSystem : Type := String → Option CsvFile

/-- Reading a CSV file: `pd.read_csv(csv_path)` raises an I/O error when
the file cannot be read. -/
def readCsv (fs : FileSystem) (path : String) : Except PyError CsvFile :=
  match fs path with
  | some c => .ok c
  | none => .error (.ioError path)

/-- Positional access to a cell of a data row, as `inputs.iloc[:, i]`
(loader) and `tRow[file_index]` (formatter) do. -/
def cellAt (r : List String) (i : Nat) : String := r.getD i ""

/-- Models `os.path.join(base_path, file_path)` for the shapes that occur
here: a separator is inserted unless the base already ends with one. -/
def joinPath (b f : String) : String :=
  if b.data.getLast? = some '/' then b ++ f else b ++ "/" ++ f

/-- Row labels of a pandas frame: either a string label carried by an
appended row (the name of the series it came from) or a positional
integer produced by `reset_index`. -/
abbrev RowLabel : Type := String ⊕ Nat

/-- A pandas DataFrame as used by the wide reshape: column headers, data
rows, and the row index labels. -/
structure Frame where
  columns : List String
  rows : List (List String)
  index : List RowLabel
deriving DecidableEq

/-- Appending a named Series as a new row
(`timeseries_dataframe.append(...)`, `timeseries_loader.py:141`): the
Series' name becomes the new row's index label. -/
def Frame.appendRow (f : Frame) (lbl : String) (vals : List String) : Frame :=
  { f with rows := f.rows ++ [vals], index := f.index ++ [Sum.inl lbl] }

/-- Rendering a row label when `reset_index(drop=False)` would move it
into a column. -/
def showLabel : RowLabel → String
  | .inl s => s
  | .inr n => toString n

/-- Models `DataFrame.reset_index`: with `drop=True` the index becomes the plain
positional sequence and no column is added; with `drop=False` the old
labels are inserted as an extra leading column
(`timeseries_loader.py:144` calls it with `drop=True`). -/
def resetIndex (drop : Bool) (f : Frame) : Frame :=
  if drop then
    { f with index := (List.range f.rows.length).map Sum.inr }
  else
    { columns := "index" :: f.columns,
      rows := (f.index.zip f.rows).map (fun p => showLabel p.1 :: p.2),
      index := (List.range f.rows.length).map Sum.inr }

namespace Loader

/-- Models `TimeSeriesLoaderPrimitive._semantic_types` (`timeseries_loader.py:61-62`). -/
def semantic_types : List String :=
  ["https://metadata.datadrivendiscovery.org/types/FileName",
   "https://metadata.datadrivendiscovery.org/types/Timeseries"]

/-- Models `TimeSeriesLoaderPrimitive._media_types` (`timeseries_loader.py:63`). -/
def media_types : List String := ["text/csv"]

/-- The loader's input metadata: one `ColumnMetadata` per column of the
input dataframe. -/
def DataMetadata : Type := List ColumnMetadata
deriving instance DecidableEq for DataMetadata

/-- Models `inputs_metadata.query((ALL_ELEMENTS, i))`: querying a column with no
metadata yields the empty dict. -/
def queryColumn (md : DataMetadata) (i : Nat) : ColumnMetadata :=
  md.getD i {}

/-- Models `TimeSeriesLoaderPrimitive._is_csv_file_column`
(`timeseries_loader.py:100-110`).  Subscripting `structural_type` on a
non-empty dict that lacks the key raises `KeyError`; `semantic_types`
and `media_types` are read with `.get(..., [])`. -/
def is_csv_file_column (md : DataMetadata) (i : Nat) : Except PyError Bool :=
  let cm := queryColumn md i
  if cm.isEmptyDict then .ok false
  else
    match cm.structural_type with
    | none => .error (.keyError "structural_type")
    | some t =>
      if t ≠ PyType.str then .ok false
      else
        .ok ((semantic_types.all (fun s => (cm.semantic_types.getD []).contains s)) &&
             (media_types.all (fun m => (cm.media_types.getD []).contains m)))

/-- Models `common_primitives.utils.list_columns_with_semantic_types`: indices
of the columns whose declared semantic types intersect the given list. -/
def list_columns_with_semantic_types (md : DataMetadata) (types : List String) : List Nat :=
  (List.range md.length).filter
    (fun i => ((queryColumn md i).semantic_types.getD []).any (fun s => types.contains s))

/-- The scan inside `_find_csv_file_column` (`timeseries_loader.py:94-96`):
first candidate satisfying the predicate, propagating any exception the
predicate raises. -/
def findLoop (md : DataMetadata) : List Nat → Except PyError (Option Nat)
  | [] => .ok none
  | i :: rest =>
    match is_csv_file_column md i with
    | .error e => .error e
    | .ok true => .ok (some i)
    | .ok false => findLoop md rest

/-- Models `TimeSeriesLoaderPrimitive._find_csv_file_column`
(`timeseries_loader.py:92-97`). -/
def find_csv_file_column (md : DataMetadata) : Except PyError (Option Nat) :=
  findLoop md (list_columns_with_semantic_types md semantic_types)

/-- The loader's hyperparameters (`timeseries_loader.py:33-49`). -/
structure Hyperparams where
  file_col_index : Option Nat
  time_col_index : Nat
  value_col_index : Nat
deriving DecidableEq

/-- The loader's input container: its metadata and its data rows (cells
are the raw strings of the dataframe). -/
structure Inputs where
  metadata : DataMetadata
  rows : List (List String)

/-- The column-resolution prologue of `produce`
(`timeseries_loader.py:117-126`): an explicit index is validated against
the predicate and a failure is a hard configuration error; otherwise the
columns are scanned and an empty scan is a configuration error. -/
def resolveFileColumn (md : DataMetadata) (hp : Hyperparams) : Except PyError Nat :=
  match hp.file_col_index with
  | some fi =>
    match is_csv_file_column md fi with
    | .error e => .error e
    | .ok true => .ok fi
    | .ok false => .error (.invalidArgumentValue "column does not contain csv file names")
  | none =>
    match find_csv_file_column md with
    | .error e => .error e
    | .ok (some fi) => .ok fi
    | .ok none => .error (.invalidArgumentValue "no column contains csv file names")

/-- Models `inputs.metadata.query((ALL_ELEMENTS, file_index))['location_base_uris'][0]`
(`timeseries_loader.py:132`): `KeyError` when the annotation is absent,
`IndexError` when it is empty, otherwise the first declared base URI.
The loader reads the annotation of the reference column itself and never
follows a foreign key. -/
def getBasePath (md : DataMetadata) (fi : Nat) : Except PyError String :=
  match (queryColumn md fi).location_base_uris with
  | none => .error (.keyError "location_base_uris")
  | some [] => .error .indexError
  | some (b :: _) => .ok b

/-- Models `timeseries_row.iloc[i]` on the transposed frame
(`timeseries_loader.py:139-141`): row `i` of the transposed CSV is
column `i` of the original file; an out-of-range position raises
`IndexError`. -/
def transposedRow (c : CsvFile) (i : Nat) : Except PyError (List String) :=
  if i < c.header.length then .ok (c.col i) else .error .indexError

/-- One iteration of the wide-reshape loop (`timeseries_loader.py:134-141`):
read the file, on the first iteration initialise the output frame with
the time row as column headers, then append the value row.  When the
accumulator has never been initialised and the iteration is not the
first, the Python variable is unbound. -/
def wideStep (fs : FileSystem) (b : String) (t v : Nat) (x : Nat × String)
    (st : Option Frame) : Except PyError (Option Frame) :=
  match readCsv fs (joinPath b x.2) with
  | .error e => .error e
  | .ok c =>
    if x.1 == 0 then
      match transposedRow c t with
      | .error e => .error e
      | .ok times =>
        match transposedRow c v with
        | .error e => .error e
        | .ok vals =>
          .ok (some (Frame.appendRow ⟨times, [], []⟩ (c.header.getD v "") vals))
    else
      match transposedRow c v with
      | .error e => .error e
      | .ok vals =>
        match st with
        | none => .error (.unboundLocal "timeseries_dataframe")
        | some f => .ok (some (f.appendRow (c.header.getD v "") vals))

/-- The wide-reshape loop over the enumerated file column. -/
def wideLoop (fs : FileSystem) (b : String) (t v : Nat) :
    List (Nat × String) → Option Frame → Except PyError (Option Frame)
  | [], st => .ok st
  | x :: rest, st =>
    match wideStep fs b t v x st with
    | .error e => .error e
    | .ok st' => wideLoop fs b t v rest st'

/-- Models `TimeSeriesLoaderPrimitive.produce` (`timeseries_loader.py:112-147`):
resolve the file column, look up the base path, fold every referenced
file into the accumulating frame, and reset the row index.  When the
input has no rows the loop never runs and `timeseries_dataframe` is an
unbound local at the `reset_index` call (`timeseries_loader.py:133,144`). -/
def produce (hp : Hyperparams) (inputs : Inputs) (fs : FileSystem) :
    Except PyError Frame :=
  match resolveFileColumn inputs.metadata hp with
  | .error e => .error e
  | .ok fi =>
    match getBasePath inputs.metadata fi with
    | .error e => .error e
    | .ok b =>
      match wideLoop fs b hp.time_col_index hp.value_col_index
          ((inputs.rows.map (fun r => cellAt r fi)).enum) none with
      | .error e => .error e
      | .ok none => .error (.unboundLocal "timeseries_dataframe")
      | .ok (some f) => .ok (resetIndex true f)

/-- Models `TimeSeriesLoaderPrimitive.can_accept` (`timeseries_loader.py:149-181`)
under the conditions of interest: `method_name = 'produce'`, the inputs
metadata supplied in `arguments`, and the framework's structural-type
check (`super().can_accept`) passing.  Returns the inputs metadata when
a file column validates or can be inferred, `None` otherwise; exceptions
raised by the predicate propagate. -/
def can_accept (md : DataMetadata) (hp : Hyperparams) :
    Except PyError (Option DataMetadata) :=
  match hp.file_col_index with
  | some fi =>
    match is_csv_file_column md fi with
    | .error e => .error e
    | .ok true => .ok (some md)
    | .ok false => .ok none
  | none =>
    match find_csv_file_column md with
    | .error e => .error e
    | .ok (some _) => .ok (some md)
    | .ok none => .ok none

end Loader

namespace Formatter

/-- Models `TimeSeriesFormatterPrimitive._semantic_types` (`timeseries_formatter.py:57-60`). -/
def semantic_types : List String :=
  ["https://metadata.datadrivendiscovery.org/types/FileName",
   "https://metadata.datadrivendiscovery.org/types/Timeseries",
   "http://schema.org/Text",
   "https://metadata.datadrivendiscovery.org/types/Attribute"]

/-- Models `TimeSeriesFormatterPrimitive._media_types` (`timeseries_formatter.py:61`). -/
def media_types : List String := ["text/csv"]

/-- The metadata of a d3m `Dataset`: per resource id, one
`ColumnMetadata` per column of that resource. -/
def DatasetMetadata : Type := List (String × List ColumnMetadata)
deriving instance DecidableEq for DatasetMetadata

/-- The columns of one resource: a missing resource has no columns. -/
def resourceColumns (dmd : DatasetMetadata) (rid : String) : List ColumnMetadata :=
  (dmd.lookup rid).getD []

/-- Models `inputs_metadata.query((res_id, ALL_ELEMENTS, i))`: querying a
selector with no metadata yields the empty dict. -/
def queryColumn (dmd : DatasetMetadata) (rid : String) (i : Nat) : ColumnMetadata :=
  (resourceColumns dmd rid).getD i {}

/-- Models `TimeSeriesFormatterPrimitive._is_csv_file_reference`
(`timeseries_formatter.py:114-128`): the referenced column must have
structural type `str`, a semantic-type set that intersects the
primitive's list, and `text/csv` among its media types. -/
def is_csv_file_reference (dmd : DatasetMetadata) (rid : String) (i : Nat) :
    Except PyError Bool :=
  let cm := queryColumn dmd rid i
  if cm.isEmptyDict then .ok false
  else
    match cm.structural_type with
    | none => .error (.keyError "structural_type")
    | some t =>
      if t ≠ PyType.str then .ok false
      else
        .ok (((cm.semantic_types.getD []).any (fun s => semantic_types.contains s)) &&
             (media_types.all (fun m => (cm.media_types.getD []).contains m)))

/-- Models `TimeSeriesFormatterPrimitive._is_csv_file_column`
(`timeseries_formatter.py:97-112`): the column must have structural type
`str` and a `foreign_key` entry (subscripting a dict without the key
raises `KeyError`, `timeseries_formatter.py:106`); a `None` entry fails
the check; otherwise the referenced column is tested with
`_is_csv_file_reference`. -/
def is_csv_file_column (dmd : DatasetMetadata) (rid : String) (i : Nat) :
    Except PyError Bool :=
  let cm := queryColumn dmd rid i
  if cm.isEmptyDict then .ok false
  else
    match cm.structural_type with
    | none => .error (.keyError "structural_type")
    | some t =>
      if t ≠ PyType.str then .ok false
      else
        match cm.foreign_key with
        | none => .error (.keyError "foreign_key")
        | some none => .ok false
        | some (some fk) => is_csv_file_reference dmd fk.resource_id fk.column_index

/-- Models `common_primitives.utils.list_columns_with_semantic_types` with
`at=(res_id,)`: indices of the resource's columns whose semantic types
intersect the given list. -/
def list_columns_with_semantic_types (dmd : DatasetMetadata) (rid : String)
    (types : List String) : List Nat :=
  (List.range (resourceColumns dmd rid).length).filter
    (fun i => ((queryColumn dmd rid i).semantic_types.getD []).any (fun s => types.contains s))

/-- The scan inside `_find_csv_file_column` (`timeseries_formatter.py:92-94`). -/
def findLoop (dmd : DatasetMetadata) (rid : String) : List Nat → Except PyError (Option Nat)
  | [] => .ok none
  | i :: rest =>
    match is_csv_file_column dmd rid i with
    | .error e => .error e
    | .ok true => .ok (some i)
    | .ok false => findLoop dmd rid rest

/-- Models `TimeSeriesFormatterPrimitive._find_csv_file_column`
(`timeseries_formatter.py:89-95`). -/
def find_csv_file_column (dmd : DatasetMetadata) (rid : String) :
    Except PyError (Option Nat) :=
  findLoop dmd rid (list_columns_with_semantic_types dmd rid semantic_types)

/-- The formatter's hyperparameters (`timeseries_formatter.py:33-44`). -/
structure Hyperparams where
  file_col_index : Option Nat
  main_resource_index : Option String
deriving DecidableEq

/-- The formatter's input container: dataset metadata plus, per resource
id, the resource's data rows. -/
structure Dataset where
  metadata : DatasetMetadata
  resources : List (String × List (List String))

/-- Cells of the long output frame: the strings copied from the main
table and the series files, or the integer series identifier appended at
`timeseries_formatter.py:157`. -/
abbrev Cell : Type := String ⊕ Nat

/-- Models `TimeSeriesFormatterPrimitive._get_base_path`
(`timeseries_formatter.py:181-191`): unconditionally subscripts the
reference column's `foreign_key` entry (`KeyError` when absent,
`TypeError` when the entry is `None`) and returns the first base URI
declared on the referenced column. -/
def get_base_path (dmd : DatasetMetadata) (rid : String) (i : Nat) :
    Except PyError String :=
  match (queryColumn dmd rid i).foreign_key with
  | none => .error (.keyError "foreign_key")
  | some none => .error (.typeError "NoneType object is not subscriptable")
  | some (some fk) =>
    match (queryColumn dmd fk.resource_id fk.column_index).location_base_uris with
    | none => .error (.keyError "location_base_uris")
    | some [] => .error .indexError
    | some (b :: _) => .ok b

/-- Models `TimeSeriesFormatterPrimitive._get_ref_resource`
(`timeseries_formatter.py:193-201`). -/
def get_ref_resource (dmd : DatasetMetadata) (rid : String) (i : Nat) :
    Except PyError String :=
  match (queryColumn dmd rid i).foreign_key with
  | none => .error (.keyError "foreign_key")
  | some none => .error (.typeError "NoneType object is not subscriptable")
  | some (some fk) => .ok fk.resource_id

/-- The rows emitted for one main row `(idx, row)`
(`timeseries_formatter.py:156-164`): the main row's fields, then the
series identifier `idx`, then one series-file row's fields. -/
def longStep (fs : FileSystem) (b : String) (fi : Nat) (x : Nat × List String)
    (acc : List (List Cell)) : Except PyError (List (List Cell)) :=
  match readCsv fs (joinPath b (cellAt x.2 fi)) with
  | .error e => .error e
  | .ok c =>
    .ok (acc ++ c.rows.map (fun v =>
      x.2.map Sum.inl ++ [Sum.inr x.1] ++ v.map Sum.inl))

/-- The long-reshape loop over the enumerated main rows
(`timeseries_formatter.py:151-164`); `iterrows` on the main resource's
default range index yields each row's original position. -/
def longLoop (fs : FileSystem) (b : String) (fi : Nat) :
    List (Nat × List String) → List (List Cell) → Except PyError (List (List Cell))
  | [], acc => .ok acc
  | x :: rest, acc =>
    match longStep fs b fi x acc with
    | .error e => .error e
    | .ok acc' => longLoop fs b fi rest acc'

/-- The metadata join computed at `timeseries_formatter.py:169-175`:
`copy_metadata` of the main resource and of the referenced resource,
then `append_columns_metadata`, i.e. the referenced resource's column
annotations appended after the main resource's. -/
def joinedMetadata (dmd : DatasetMetadata) (mainRid refRid : String) :
    List ColumnMetadata :=
  resourceColumns dmd mainRid ++ resourceColumns dmd refRid

/-- The metadata attached to the produced dataset: `autoGenerated`
models `container.Dataset(..., generate_metadata=True)`
(`timeseries_formatter.py:179`); `explicitMeta` models attaching a
computed metadata object (the commented-out `timeseries_formatter.py:178`). -/
inductive OutputMeta where
  | autoGenerated
  | explicitMeta (cols : List ColumnMetadata)
deriving DecidableEq

/-- The value returned by the formatter's `produce`: a dataset holding
one resource `'0'` with the long frame and its attached metadata. -/
structure ProduceResult where
  resourceId : String
  data : List (List Cell)
  outMeta : OutputMeta
deriving DecidableEq

/-- Models `TimeSeriesFormatterPrimitive.produce` (`timeseries_formatter.py:130-179`).
A missing main-resource designation is a configuration error
(`timeseries_formatter.py:136-137`).  An explicit file column is
validated with `_is_csv_file_column`; with no explicit index the call
`self._find_csv_file_column(inputs.metadata)` at
`timeseries_formatter.py:144` omits the required `res_id` argument and
therefore raises `TypeError` before any scan happens.  After the loop
the joined metadata of `timeseries_formatter.py:169-175` is computed but
discarded: the output is wrapped with `generate_metadata=True`
(`timeseries_formatter.py:179`). -/
def produce (hp : Hyperparams) (ds : Dataset) (fs : FileSystem) :
    Except PyError ProduceResult :=
  match hp.main_resource_index with
  | none => .error (.invalidArgumentValue "no main resource specified")
  | some mainRid =>
    match (match hp.file_col_index with
           | some fi =>
             match is_csv_file_column ds.metadata mainRid fi with
             | .error e => .error e
             | .ok true => .ok fi
             | .ok false =>
               .error (.invalidArgumentValue "column does not contain csv file names")
           | none =>
             .error (.typeError
               "find_csv_file_column missing 1 required positional argument: res_id")
           : Except PyError Nat) with
    | .error e => .error e
    | .ok fi =>
      match get_base_path ds.metadata mainRid fi with
      | .error e => .error e
      | .ok b =>
        match ds.resources.lookup mainRid with
        | none => .error (.keyError mainRid)
        | some mainRows =>
          match longLoop fs b fi mainRows.enum [] with
          | .error e => .error e
          | .ok data =>
            match get_ref_resource ds.metadata mainRid fi with
            | .error e => .error e
            | .ok refRid =>
              let _joined := joinedMetadata ds.metadata mainRid refRid
              .ok ⟨"0", data, OutputMeta.autoGenerated⟩

/-- Models `TimeSeriesFormatterPrimitive.can_accept`
(`timeseries_formatter.py:203-239`) under `method_name = 'produce'`,
inputs metadata supplied, and the framework's structural-type check
passing.  Unlike `produce`, the inferred branch calls
`_find_csv_file_column` with the resource id (`timeseries_formatter.py:233`). -/
def can_accept (dmd : DatasetMetadata) (hp : Hyperparams) :
    Except PyError (Option DatasetMetadata) :=
  match hp.main_resource_index with
  | none => .ok none
  | some mainRid =>
    match hp.file_col_index with
    | some fi =>
      match is_csv_file_column dmd mainRid fi with
      | .error e => .error e
      | .ok true => .ok (some dmd)
      | .ok false => .ok none
    | none =>
      match find_csv_file_column dmd mainRid with
      | .error e => .error e
      | .ok (some _) => .ok (some dmd)
      | .ok none => .ok none

end Formatter

/-! Helper views of the loaded data, used to state what the reshapes
produce.  They are total functions of the filesystem: on a path the
filesystem does not resolve they return junk, and the theorems only ever
apply them under the hypothesis that the file loads. -/

/-- The value column that the wide reshape appends for one file. -/
def valCol (fs : FileSystem) (b : String) (v : Nat) (fp : String) : List String :=
  match fs (joinPath b fp) with
  | some c => c.col v
  | none => []

/-- The index label the wide reshape attaches to one appended row: the
name of the file's value column. -/
def valLabel (fs : FileSystem) (b : String) (v : Nat) (fp : String) : RowLabel :=
  match fs (joinPath b fp) with
  | some c => Sum.inl (c.header.getD v "")
  | none => Sum.inr 0

/-- The data rows of one referenced series file. -/
def loadedCsvRows (fs : FileSystem) (b : String) (fp : String) : List (List String) :=
  match fs (joinPath b fp) with
  | some c => c.rows
  | none => []

/-- The block of long-output rows emitted for one enumerated main row. -/
def emittedRows (fs : FileSystem) (b : String) (fi : Nat) (x : Nat × List String) :
    List (List Formatter.Cell) :=
  (loadedCsvRows fs b (cellAt x.2 fi)).map (fun v =>
    x.2.map Sum.inl ++ [Sum.inr x.1] ++ v.map Sum.inl)

/-! Concrete fixtures used by witnesses and counterexamples. -/

/-- The FileName semantic type URI. -/
def tFileName : String := "https://metadata.datadrivendiscovery.org/types/FileName"

/-- The Timeseries semantic type URI. -/
def tTimeseries : String := "https://metadata.datadrivendiscovery.org/types/Timeseries"

/-- A fully annotated csv file-name column for the loader. -/
def cmFile : ColumnMetadata :=
  { structural_type := some PyType.str,
    semantic_types := some [tFileName, tTimeseries],
    media_types := some ["text/csv"],
    location_base_uris := some ["file:///data/"] }

/-- Loader metadata with the file column at index 0. -/
def mdL : Loader.DataMetadata := [cmFile]

/-- Loader hyperparameters: explicit file column 0, time column 0,
value column 1. -/
def hpL : Loader.Hyperparams := ⟨some 0, 0, 1⟩

/-- A series file whose timestamps are 0 and 1. -/
def csvA : CsvFile := ⟨["time", "value"], [["0", "10"], ["1", "11"]]⟩

/-- A series file whose timestamps are 5 and 7, deliberately different
from `csvA`. -/
def csvB : CsvFile := ⟨["time", "value"], [["5", "20"], ["7", "21"]]⟩

/-- A filesystem resolving the two fixture series files. -/
def fsL : FileSystem := fun p =>
  if p = "file:///data/a.csv" then some csvA
  else if p = "file:///data/b.csv" then some csvB
  else none

/-- Fixture data rows for the loader: two rows referencing the two files. -/
def rowsL : List (List String) := [["a.csv"], ["b.csv"]]

/-- A filesystem with no files at all. -/
def fsEmpty : FileSystem := fun _ => none

/-- The formatter's file-name column in the main resource: a string
column carrying a foreign key into resource `"0"`, column 0. -/
def cmMainFile : ColumnMetadata :=
  { structural_type := some PyType.str,
    semantic_types := some [tFileName, tTimeseries],
    foreign_key := some (some ⟨"0", 0⟩) }

/-- A plain data column of the main resource. -/
def cmPlain : ColumnMetadata :=
  { structural_type := some PyType.str,
    semantic_types := some ["http://schema.org/Integer"] }

/-- The referenced catalog column in resource `"0"`: string, tagged,
csv media type, and carrying the base URI. -/
def cmRefCol : ColumnMetadata :=
  { structural_type := some PyType.str,
    semantic_types := some [tFileName, tTimeseries],
    media_types := some ["text/csv"],
    location_base_uris := some ["file:///ts/"] }

/-- Fixture dataset metadata: main resource `"1"` with the file column
at index 0, catalog resource `"0"`. -/
def dmdF : Formatter.DatasetMetadata :=
  [("1", [cmMainFile, cmPlain]), ("0", [cmRefCol])]

/-- Fixture dataset: two main rows referencing the two series files. -/
def dsF : Formatter.Dataset :=
  ⟨dmdF, [("1", [["a.csv", "x"], ["b.csv", "y"]]), ("0", [["a.csv"], ["b.csv"]])]⟩

/-- A filesystem resolving the fixture series files under the catalog
column's base URI. -/
def fsF : FileSystem := fun p =>
  if p = "file:///ts/a.csv" then some csvA
  else if p = "file:///ts/b.csv" then some csvB
  else none

/-- Formatter hyperparameters with the file column given explicitly. -/
def hpFE : Formatter.Hyperparams := ⟨some 0, some "1"⟩

/-- Formatter hyperparameters relying on column inference. -/
def hpFI : Formatter.Hyperparams := ⟨none, some "1"⟩

/-- The loader's fully annotated file column with no `location_base_uris`
entry. -/
def cmFileNoBase : ColumnMetadata :=
  { structural_type := some PyType.str,
    semantic_types := some [tFileName, tTimeseries],
    media_types := some ["text/csv"] }

/-- Loader metadata whose file column declares no base URI. -/
def mdNB : Loader.DataMetadata := [cmFileNoBase]

/-- A column whose queried dict is non-empty but has no
`structural_type` entry. -/
def cmNoStruct : ColumnMetadata :=
  { semantic_types := some [tFileName] }

/-- Loader metadata on which the predicate raises `KeyError`. -/
def mdNS : Loader.DataMetadata := [cmNoStruct]

/-- A column the code accepts although its media types are not a subset
of the csv singleton. -/
def cmMultiMedia : ColumnMetadata :=
  { structural_type := some PyType.str,
    semantic_types := some [tFileName, tTimeseries],
    media_types := some ["text/csv", "application/json"] }

/-- A catalog column carrying only the Text semantic tag. -/
def cmTextOnly : ColumnMetadata :=
  { structural_type := some PyType.str,
    semantic_types := some ["http://schema.org/Text"],
    media_types := some ["text/csv"] }

/-- A reference column with its own base URI but no foreign-key entry. -/
def cmOwnNoFk : ColumnMetadata :=
  { structural_type := some PyType.str,
    location_base_uris := some ["file:///own/"] }

/-- Formatter metadata whose reference column has no foreign key. -/
def dmdOwn : Formatter.DatasetMetadata := [("1", [cmOwnNoFk])]

/-- A loader column that declares both its own base URI and a foreign
key. -/
def cmOwnWithFk : ColumnMetadata :=
  { structural_type := some PyType.str,
    semantic_types := some [tFileName, tTimeseries],
    media_types := some ["text/csv"],
    foreign_key := some (some ⟨"9", 3⟩),
    location_base_uris := some ["file:///own/"] }

/-- Loader metadata whose file column carries a foreign key. -/
def mdOwnFk : Loader.DataMetadata := [cmOwnWithFk]

/-- Claim C4's wording of the reference-column predicate, modelled from
the spec for refutation: structural type string, semantic tags matching
filename together with time-series or csv, and declared media types a
subset of the csv singleton. -/
def specReferencePredicate (cm : ColumnMetadata) : Bool :=
  (cm.structural_type == some PyType.str) &&
  ((cm.semantic_types.getD []).contains tFileName) &&
  (((cm.semantic_types.getD []).contains tTimeseries) ||
     ((cm.semantic_types.getD []).contains "csv")) &&
  ((cm.media_types.getD []).all (fun m => m == "text/csv"))

/-- The result of an invocation that aborted at a failed file read: an
`ioError` naming a path the filesystem does not resolve, carrying no
output value at all. -/
def abortsWithIOError {α : Type _} (fs : FileSystem) (r : Except PyError α) : Prop :=
  match r with
  | .error (.ioError q) => fs q = none
  | _ => False

/-- A filesystem resolving only the first fixture series file; the
loader fixture's second reference is missing. -/
def fsOnlyA : FileSystem := fun p =>
  if p = "file:///data/a.csv" then some csvA else none

/-- A filesystem resolving only the first fixture series file under the
formatter's base URI. -/
def fsFOnlyA : FileSystem := fun p =>
  if p = "file:///ts/a.csv" then some csvA else none

/-! General lemmas about `List.enumFrom`, self-contained. -/

lemma enumFrom_map_val {β γ : Type _} (g : β → γ) :
    ∀ (n : Nat) (l : List β), (l.enumFrom n).map (fun p => g p.2) = l.map g := by
  intro n l
  induction l generalizing n with
  | nil => rfl
  | cons a l ih => simp [List.enumFrom, ih]

lemma le_fst_of_mem_enumFrom {β : Type _} :
    ∀ (l : List β) (n : Nat) (p : Nat × β), p ∈ l.enumFrom n → n ≤ p.1 := by
  intro l
  induction l with
  | nil => intro n p h; simp [List.enumFrom] at h
  | cons a l ih =>
    intro n p h
    simp only [List.enumFrom, List.mem_cons] at h
    rcases h with h | h
    · subst h; exact Nat.le_refl n
    · exact Nat.le_of_succ_le (ih (n + 1) p h)

lemma snd_mem_of_mem_enumFrom {β : Type _} :
    ∀ (l : List β) (n : Nat) (p : Nat × β), p ∈ l.enumFrom n → p.2 ∈ l := by
  intro l
  induction l with
  | nil => intro n p h; simp [List.enumFrom] at h
  | cons a l ih =>
    intro n p h
    simp only [List.enumFrom, List.mem_cons] at h
    rcases h with h | h
    · subst h; exact List.mem_cons_self a l
    · exact List.mem_cons_of_mem a (ih (n + 1) p h)

lemma mem_enumFrom_of_mem {β : Type _} :
    ∀ (l : List β) (n : Nat) (y : β), y ∈ l → ∃ p ∈ l.enumFrom n, p.2 = y := by
  intro l
  induction l with
  | nil => intro n y h; simp at h
  | cons a l ih =>
    intro n y h
    rcases List.mem_cons.1 h with h | h
    · exact ⟨(n, a), List.mem_cons_self _ _, h.symm⟩
    · rcases ih (n + 1) y h with ⟨p, hp, hpy⟩
      exact ⟨p, List.mem_cons_of_mem _ hp, hpy⟩

/-! Lemmas about the wide-reshape loop. -/

lemma wideStep_pos (fs : FileSystem) (b : String) (t v : Nat) (x : Nat × String)
    (c : CsvFile) (f : Frame) (h0 : x.1 ≠ 0)
    (hc : fs (joinPath b x.2) = some c) (hv : v < c.header.length) :
    Loader.wideStep fs b t v x (some f) =
      .ok (some (f.appendRow (c.header.getD v "") (c.col v))) := by
  simp [Loader.wideStep, readCsv, hc, h0, Loader.transposedRow, hv]

lemma wideLoop_pos_spec (fs : FileSystem) (b : String) (t v : Nat) :
    ∀ (l : List (Nat × String)) (f : Frame),
    (∀ p ∈ l, p.1 ≠ 0) →
    (∀ p ∈ l, ∃ c, fs (joinPath b p.2) = some c ∧ v < c.header.length) →
    Loader.wideLoop fs b t v l (some f) =
      .ok (some ⟨f.columns, f.rows ++ l.map (fun p => valCol fs b v p.2),
                 f.index ++ l.map (fun p => valLabel fs b v p.2)⟩) := by
  intro l
  induction l with
  | nil => intro f _ _; simp [Loader.wideLoop]
  | cons x l ih =>
    intro f h0 hload
    rcases hload x (List.mem_cons_self _ _) with ⟨c, hc, hv⟩
    simp only [Loader.wideLoop,
      wideStep_pos fs b t v x c f (h0 x (List.mem_cons_self _ _)) hc hv]
    rw [ih (f.appendRow (c.header.getD v "") (c.col v))
          (fun p hp => h0 p (List.mem_cons_of_mem _ hp))
          (fun p hp => hload p (List.mem_cons_of_mem _ hp))]
    simp [Frame.appendRow, valCol, valLabel, hc]

/-- What the wide reshape returns on a non-empty input whose
configuration resolves and whose files all load: the first file's time
column becomes the headers, each file contributes its value column as
one row, and the index is reset to the positional range. -/
lemma produce_wide_spec (hp : Loader.Hyperparams) (md : Loader.DataMetadata)
    (r0 : List String) (rest : List (List String)) (fs : FileSystem)
    (fi : Nat) (b : String) (c0 : CsvFile)
    (hfi : Loader.resolveFileColumn md hp = .ok fi)
    (hb : Loader.getBasePath md fi = .ok b)
    (hc0 : fs (joinPath b (cellAt r0 fi)) = some c0)
    (ht : hp.time_col_index < c0.header.length)
    (hv : hp.value_col_index < c0.header.length)
    (hload : ∀ r ∈ rest, ∃ c, fs (joinPath b (cellAt r fi)) = some c ∧
        hp.value_col_index < c.header.length) :
    Loader.produce hp ⟨md, r0 :: rest⟩ fs =
      .ok ⟨c0.col hp.time_col_index,
           (r0 :: rest).map (fun r => valCol fs b hp.value_col_index (cellAt r fi)),
           (List.range (r0 :: rest).length).map Sum.inr⟩ := by
  have hstep0 : Loader.wideStep fs b hp.time_col_index hp.value_col_index
      (0, cellAt r0 fi) none =
      .ok (some (Frame.appendRow ⟨c0.col hp.time_col_index, [], []⟩
        (c0.header.getD hp.value_col_index "") (c0.col hp.value_col_index))) := by
    simp only [Loader.wideStep, readCsv, hc0, Loader.transposedRow, if_pos ht,
      if_pos hv, beq_self_eq_true, if_true]
  have hrest := wideLoop_pos_spec fs b hp.time_col_index hp.value_col_index
    ((rest.map (fun r => cellAt r fi)).enumFrom 1)
    (Frame.appendRow ⟨c0.col hp.time_col_index, [], []⟩
      (c0.header.getD hp.value_col_index "") (c0.col hp.value_col_index))
    (fun p hp' => by
      have := le_fst_of_mem_enumFrom _ 1 p hp'
      omega)
    (fun p hp' => by
      have hmem := snd_mem_of_mem_enumFrom _ 1 p hp'
      rcases List.mem_map.1 hmem with ⟨r, hr, hrp⟩
      rcases hload r hr with ⟨c, hc, hvc⟩
      exact ⟨c, by rw [hrp] at hc; exact hc, hvc⟩)
  have hval0 : valCol fs b hp.value_col_index (cellAt r0 fi) =
      c0.col hp.value_col_index := by
    simp only [valCol, hc0]
  simp only [Frame.appendRow] at hrest
  simp only [Loader.produce, hfi, hb, Loader.wideLoop, hstep0, Frame.appendRow,
    Nat.zero_add, hrest]
  rw [enumFrom_map_val (valCol fs b hp.value_col_index), List.map_map]
  simp [resetIndex, hval0, Function.comp]

/-- When some file in a tail of the enumerated iteration is missing and
every file that does load is deep enough for the configured value
column, the wide loop aborts with an I/O error naming a missing file. -/
lemma wideLoop_pos_missing (fs : FileSystem) (b : String) (t v : Nat) :
    ∀ (l : List (Nat × String)) (f : Frame),
    (∀ p ∈ l, p.1 ≠ 0) →
    (∀ p ∈ l, ∀ c, fs (joinPath b p.2) = some c → v < c.header.length) →
    (∃ p ∈ l, fs (joinPath b p.2) = none) →
    ∃ q, Loader.wideLoop fs b t v l (some f) = .error (.ioError q) ∧ fs q = none := by
  intro l
  induction l with
  | nil => intro f _ _ hmiss; rcases hmiss with ⟨p, hp, _⟩; simp at hp
  | cons x l ih =>
    intro f h0 hbound hmiss
    cases hx : fs (joinPath b x.2) with
    | none =>
      refine ⟨joinPath b x.2, ?_, hx⟩
      simp [Loader.wideLoop, Loader.wideStep, readCsv, hx]
    | some c =>
      have hv := hbound x (List.mem_cons_self _ _) c hx
      rw [Loader.wideLoop,
        wideStep_pos fs b t v x c f (h0 x (List.mem_cons_self _ _)) hx hv]
      refine ih (f.appendRow (c.header.getD v "") (c.col v))
        (fun p hp => h0 p (List.mem_cons_of_mem _ hp))
        (fun p hp => hbound p (List.mem_cons_of_mem _ hp)) ?_
      rcases hmiss with ⟨p, hp, hpn⟩
      rcases List.mem_cons.1 hp with hp | hp
      · rw [hp] at hpn; rw [hpn] at hx; cases hx
      · exact ⟨p, hp, hpn⟩

/-- The loader's `produce` aborts with an I/O error when any referenced
file is missing, provided the files that do load are deep enough for
the configured time and value columns.  The `Except.error` result
carries no frame: no partial output is returned. -/
lemma produce_wide_missing (hp : Loader.Hyperparams) (md : Loader.DataMetadata)
    (rows : List (List String)) (fs : FileSystem) (fi : Nat) (b : String)
    (hfi : Loader.resolveFileColumn md hp = .ok fi)
    (hb : Loader.getBasePath md fi = .ok b)
    (hbound : ∀ r ∈ rows, ∀ c, fs (joinPath b (cellAt r fi)) = some c →
        hp.time_col_index < c.header.length ∧ hp.value_col_index < c.header.length)
    (hmiss : ∃ r ∈ rows, fs (joinPath b (cellAt r fi)) = none) :
    ∃ q, Loader.produce hp ⟨md, rows⟩ fs = .error (.ioError q) ∧ fs q = none := by
  cases rows with
  | nil => rcases hmiss with ⟨r, hr, _⟩; simp at hr
  | cons r0 rest =>
    cases hx : fs (joinPath b (cellAt r0 fi)) with
    | none =>
      refine ⟨joinPath b (cellAt r0 fi), ?_, hx⟩
      simp [Loader.produce, hfi, hb, Loader.wideLoop, Loader.wideStep, readCsv, hx]
    | some c0 =>
      rcases hbound r0 (List.mem_cons_self _ _) c0 hx with ⟨ht, hv⟩
      have hstep0 : Loader.wideStep fs b hp.time_col_index hp.value_col_index
          (0, cellAt r0 fi) none =
          .ok (some (Frame.appendRow ⟨c0.col hp.time_col_index, [], []⟩
            (c0.header.getD hp.value_col_index "") (c0.col hp.value_col_index))) := by
        simp only [Loader.wideStep, readCsv, hx, Loader.transposedRow, if_pos ht,
          if_pos hv, beq_self_eq_true, if_true]
      have hmiss' : ∃ p ∈ (rest.map (fun r => cellAt r fi)).enumFrom 1,
          fs (joinPath b p.2) = none := by
        rcases hmiss with ⟨r, hr, hrn⟩
        rcases List.mem_cons.1 hr with hr | hr
        · rw [hr] at hrn; rw [hrn] at hx; cases hx
        · rcases mem_enumFrom_of_mem (rest.map (fun r => cellAt r fi)) 1
            (cellAt r fi) (List.mem_map_of_mem _ hr) with ⟨p, hpmem, hpv⟩
          exact ⟨p, hpmem, by rw [hpv]; exact hrn⟩
      rcases wideLoop_pos_missing fs b hp.time_col_index hp.value_col_index
        ((rest.map (fun r => cellAt r fi)).enumFrom 1)
        (Frame.appendRow ⟨c0.col hp.time_col_index, [], []⟩
          (c0.header.getD hp.value_col_index "") (c0.col hp.value_col_index))
        (fun p hp' => by
          have := le_fst_of_mem_enumFrom _ 1 p hp'
          omega)
        (fun p hp' c hc => by
          have hmem := snd_mem_of_mem_enumFrom _ 1 p hp'
          rcases List.mem_map.1 hmem with ⟨r, hr, hrp⟩
          exact (hbound r (List.mem_cons_of_mem _ hr) c (by rw [hrp]; exact hc)).2)
        hmiss' with ⟨q, hq, hqn⟩
      refine ⟨q, ?_, hqn⟩
      simp only [Loader.produce, hfi, hb, Loader.wideLoop, hstep0, Nat.zero_add, hq]

/-- One successful step of the long-reshape loop. -/
lemma longStep_ok (fs : FileSystem) (b : String) (fi : Nat) (x : Nat × List String)
    (acc : List (List Formatter.Cell)) (c : CsvFile)
    (hc : fs (joinPath b (cellAt x.2 fi)) = some c) :
    Formatter.longStep fs b fi x acc =
      .ok (acc ++ emittedRows fs b fi x) := by
  simp [Formatter.longStep, readCsv, hc, emittedRows, loadedCsvRows]

/-- The long loop over rows whose files all load appends every emitted
block to the accumulator. -/
lemma longLoop_spec (fs : FileSystem) (b : String) (fi : Nat) :
    ∀ (l : List (Nat × List String)) (acc : List (List Formatter.Cell)),
    (∀ x ∈ l, ∃ c, fs (joinPath b (cellAt x.2 fi)) = some c) →
    Formatter.longLoop fs b fi l acc =
      .ok (acc ++ (l.map (emittedRows fs b fi)).flatten) := by
  intro l
  induction l with
  | nil => intro acc _; simp [Formatter.longLoop]
  | cons x l ih =>
    intro acc hload
    rcases hload x (List.mem_cons_self _ _) with ⟨c, hc⟩
    simp only [Formatter.longLoop, longStep_ok fs b fi x acc c hc]
    rw [ih (acc ++ emittedRows fs b fi x)
      (fun y hy => hload y (List.mem_cons_of_mem _ hy))]
    simp

/-- The long loop aborts with an I/O error when any row's file is
missing. -/
lemma longLoop_missing (fs : FileSystem) (b : String) (fi : Nat) :
    ∀ (l : List (Nat × List String)) (acc : List (List Formatter.Cell)),
    (∃ x ∈ l, fs (joinPath b (cellAt x.2 fi)) = none) →
    ∃ q, Formatter.longLoop fs b fi l acc = .error (.ioError q) ∧ fs q = none := by
  intro l
  induction l with
  | nil => intro acc hmiss; rcases hmiss with ⟨x, hx, _⟩; simp at hx
  | cons x l ih =>
    intro acc hmiss
    cases hx : fs (joinPath b (cellAt x.2 fi)) with
    | none =>
      refine ⟨joinPath b (cellAt x.2 fi), ?_, hx⟩
      simp [Formatter.longLoop, Formatter.longStep, readCsv, hx]
    | some c =>
      simp only [Formatter.longLoop, longStep_ok fs b fi x acc c hx]
      refine ih (acc ++ emittedRows fs b fi x) ?_
      rcases hmiss with ⟨y, hy, hyn⟩
      rcases List.mem_cons.1 hy with hy | hy
      · rw [hy] at hyn; rw [hyn] at hx; cases hx
      · exact ⟨y, hy, hyn⟩

/-- A column that passes the formatter's file-column predicate carries a
foreign-key entry. -/
lemma fk_of_file_column (dmd : Formatter.DatasetMetadata) (rid : String) (i : Nat)
    (h : Formatter.is_csv_file_column dmd rid i = .ok true) :
    ∃ fk, (Formatter.queryColumn dmd rid i).foreign_key = some (some fk) := by
  simp only [Formatter.is_csv_file_column] at h
  split at h
  · simp at h
  · split at h
    · simp at h
    · split at h
      · simp at h
      · split at h
        · simp at h
        · simp at h
        · exact ⟨_, by assumption⟩

/-- What the long reshape returns when the configuration resolves and
every referenced file loads. -/
lemma produce_long_spec (hp : Formatter.Hyperparams) (ds : Formatter.Dataset)
    (fs : FileSystem) (mainRid : String) (fi : Nat) (b : String)
    (mainRows : List (List String))
    (hm : hp.main_resource_index = some mainRid)
    (hf : hp.file_col_index = some fi)
    (hpred : Formatter.is_csv_file_column ds.metadata mainRid fi = .ok true)
    (hb : Formatter.get_base_path ds.metadata mainRid fi = .ok b)
    (hres : ds.resources.lookup mainRid = some mainRows)
    (hload : ∀ x ∈ mainRows.enum, ∃ c, fs (joinPath b (cellAt x.2 fi)) = some c) :
    Formatter.produce hp ds fs =
      .ok ⟨"0", (mainRows.enum.map (emittedRows fs b fi)).flatten,
           Formatter.OutputMeta.autoGenerated⟩ := by
  rcases fk_of_file_column ds.metadata mainRid fi hpred with ⟨fk, hfk⟩
  have hloop := longLoop_spec fs b fi mainRows.enum [] hload
  have href : Formatter.get_ref_resource ds.metadata mainRid fi =
      .ok fk.resource_id := by
    simp [Formatter.get_ref_resource, hfk]
  simp only [Formatter.produce, hm, hf, hpred, hb, hres, hloop, href]
  simp

/-- An empty queried dict has no `structural_type` entry. -/
lemma structural_none_of_emptyDict (cm : ColumnMetadata)
    (h : cm.isEmptyDict = true) : cm.structural_type = none := by
  simp only [ColumnMetadata.isEmptyDict, Bool.and_eq_true,
    Option.isNone_iff_eq_none] at h
  exact h.1.1.1.1

/-- The only exception the loader's file-column predicate raises is the
`KeyError` for a missing `structural_type` entry. -/
lemma loader_pred_error (md : Loader.DataMetadata) (i : Nat) (e : PyError)
    (h : Loader.is_csv_file_column md i = .error e) :
    e = .keyError "structural_type" := by
  simp only [Loader.is_csv_file_column] at h
  split at h
  · simp at h
  · split at h
    · injection h with h
      exact h.symm
    · split at h
      · simp at h
      · simp at h

/-- The scan propagates only that `KeyError`. -/
lemma loader_findLoop_error (md : Loader.DataMetadata) :
    ∀ (l : List Nat) (e : PyError), Loader.findLoop md l = .error e →
      e = .keyError "structural_type" := by
  intro l
  induction l with
  | nil => intro e h; simp [Loader.findLoop] at h
  | cons i rest ih =>
    intro e h
    simp only [Loader.findLoop] at h
    split at h
    · injection h with h
      subst h
      exact loader_pred_error md i _ (by assumption)
    · simp at h
    · exact ih e h

/-- The loader's `_find_csv_file_column` propagates only that `KeyError`. -/
lemma loader_find_error (md : Loader.DataMetadata) (e : PyError)
    (h : Loader.find_csv_file_column md = .error e) :
    e = .keyError "structural_type" :=
  loader_findLoop_error md _ e h

/-! Claim theorems. -/

/-- C2: for every non-empty input table whose reference column resolves
and whose referenced series files all load (and are deep enough for the
configured time and value columns), the wide reshape returns a frame
with one row per input row, one column per timestamp of the
first-loaded series file, and a row index reset to the plain positional
sequence with no extra index column. -/
theorem C2_wide_output_shape (hp : Loader.Hyperparams) (md : Loader.DataMetadata)
    (r0 : List String) (rest : List (List String)) (fs : FileSystem)
    (fi : Nat) (b : String) (c0 : CsvFile)
    (hfi : Loader.resolveFileColumn md hp = .ok fi)
    (hb : Loader.getBasePath md fi = .ok b)
    (hc0 : fs (joinPath b (cellAt r0 fi)) = some c0)
    (ht : hp.time_col_index < c0.header.length)
    (hv : hp.value_col_index < c0.header.length)
    (hload : ∀ r ∈ rest, ∃ c, fs (joinPath b (cellAt r fi)) = some c ∧
        hp.value_col_index < c.header.length) :
    (Loader.produce hp ⟨md, r0 :: rest⟩ fs).map (fun f => f.rows.length) =
      .ok (r0 :: rest).length ∧
    (Loader.produce hp ⟨md, r0 :: rest⟩ fs).map Frame.columns =
      .ok (c0.col hp.time_col_index) ∧
    (c0.col hp.time_col_index).length = c0.rows.length ∧
    (Loader.produce hp ⟨md, r0 :: rest⟩ fs).map Frame.index =
      .ok ((List.range (r0 :: rest).length).map Sum.inr) := by
  rw [produce_wide_spec hp md r0 rest fs fi b c0 hfi hb hc0 ht hv hload]
  refine ⟨?_, rfl, ?_, rfl⟩
  · simp [Except.map]
  · simp [CsvFile.col]

/-- Witness for C2 at the two-row fixture: two output rows, columns
equal to the first file's two timestamps, index reset to 0 and 1. -/
theorem C2_wide_output_shape_witness :
    (Loader.produce hpL ⟨mdL, [["a.csv"], ["b.csv"]]⟩ fsL).map
        (fun f => f.rows.length) = .ok 2 ∧
    (Loader.produce hpL ⟨mdL, [["a.csv"], ["b.csv"]]⟩ fsL).map Frame.columns =
      .ok ["0", "1"] ∧
    (csvA.col 0).length = csvA.rows.length ∧
    (Loader.produce hpL ⟨mdL, [["a.csv"], ["b.csv"]]⟩ fsL).map Frame.index =
      .ok [Sum.inr 0, Sum.inr 1] := by
  have hload : ∀ r ∈ [["b.csv"]], ∃ c,
      fsL (joinPath "file:///data/" (cellAt r 0)) = some c ∧
      hpL.value_col_index < c.header.length := by
    intro r hr
    rw [List.mem_singleton] at hr
    subst hr
    exact ⟨csvB, by decide, by decide⟩
  exact C2_wide_output_shape hpL mdL ["a.csv"] [["b.csv"]] fsL 0 "file:///data/"
    csvA (by decide) (by decide) (by decide) (by decide) (by decide) hload

/-- C6: in the wide reshape every series file after the first has its
value column appended positionally under the headers established by the
first file's timestamps.  No hypothesis relates the later files' time
columns to the first file's: the code performs no such validation. -/
theorem C6_positional_append (hp : Loader.Hyperparams) (md : Loader.DataMetadata)
    (r0 : List String) (rest : List (List String)) (fs : FileSystem)
    (fi : Nat) (b : String) (c0 : CsvFile)
    (hfi : Loader.resolveFileColumn md hp = .ok fi)
    (hb : Loader.getBasePath md fi = .ok b)
    (hc0 : fs (joinPath b (cellAt r0 fi)) = some c0)
    (ht : hp.time_col_index < c0.header.length)
    (hv : hp.value_col_index < c0.header.length)
    (hload : ∀ r ∈ rest, ∃ c, fs (joinPath b (cellAt r fi)) = some c ∧
        hp.value_col_index < c.header.length) :
    Loader.produce hp ⟨md, r0 :: rest⟩ fs =
      .ok ⟨c0.col hp.time_col_index,
           (r0 :: rest).map (fun r => valCol fs b hp.value_col_index (cellAt r fi)),
           (List.range (r0 :: rest).length).map Sum.inr⟩ :=
  produce_wide_spec hp md r0 rest fs fi b c0 hfi hb hc0 ht hv hload

/-- Witness for C6: the second fixture file's timestamp column differs
from the first file's, and its values are still appended under the
first file's headers. -/
theorem C6_positional_append_witness :
    Loader.produce hpL ⟨mdL, [["a.csv"], ["b.csv"]]⟩ fsL =
      .ok ⟨["0", "1"], [["10", "11"], ["20", "21"]], [Sum.inr 0, Sum.inr 1]⟩ ∧
    csvB.col 0 ≠ csvA.col 0 := by
  have hload : ∀ r ∈ [["b.csv"]], ∃ c,
      fsL (joinPath "file:///data/" (cellAt r 0)) = some c ∧
      hpL.value_col_index < c.header.length := by
    intro r hr
    rw [List.mem_singleton] at hr
    subst hr
    exact ⟨csvB, by decide, by decide⟩
  refine ⟨Eq.trans (C6_positional_append hpL mdL ["a.csv"] [["b.csv"]] fsL 0
    "file:///data/" csvA (by decide) (by decide) (by decide) (by decide)
    (by decide) hload) (by decide), by decide⟩

/-- C10: on an input with zero rows whose reference column and base path
resolve, the wide reshape's loop never runs, the accumulator variable is
never bound, and `produce` fails with an unbound-local error instead of
returning an empty frame — for every filesystem, since nothing is read. -/
theorem C10_empty_input_unbound_local (hp : Loader.Hyperparams)
    (md : Loader.DataMetadata) (fs : FileSystem) (fi : Nat) (b : String)
    (hfi : Loader.resolveFileColumn md hp = .ok fi)
    (hb : Loader.getBasePath md fi = .ok b) :
    Loader.produce hp ⟨md, []⟩ fs =
      .error (.unboundLocal "timeseries_dataframe") := by
  simp [Loader.produce, hfi, hb, Loader.wideLoop]

/-- Witness for C10 at the fixture metadata with an empty filesystem. -/
theorem C10_empty_input_unbound_local_witness :
    Loader.produce hpL ⟨mdL, []⟩ fsEmpty =
      .error (.unboundLocal "timeseries_dataframe") :=
  C10_empty_input_unbound_local hpL mdL fsEmpty 0 "file:///data/"
    (by decide) (by decide)

/-- C9: when some referenced series file fails to load, both reshapes
abort at the point of that read with an I/O error: the `Except.error`
result carries no table, so no partial output is returned and no row is
skipped.  Files that do load are assumed deep enough for the configured
columns (otherwise the abort is an `IndexError` instead). -/
theorem C9_io_error_aborts :
    (∀ (hp : Loader.Hyperparams) (md : Loader.DataMetadata)
       (rows : List (List String)) (fs : FileSystem) (fi : Nat) (b : String),
      Loader.resolveFileColumn md hp = .ok fi →
      Loader.getBasePath md fi = .ok b →
      (∀ r ∈ rows, ∀ c, fs (joinPath b (cellAt r fi)) = some c →
        hp.time_col_index < c.header.length ∧ hp.value_col_index < c.header.length) →
      (∃ r ∈ rows, fs (joinPath b (cellAt r fi)) = none) →
      abortsWithIOError fs (Loader.produce hp ⟨md, rows⟩ fs)) ∧
    (∀ (hp : Formatter.Hyperparams) (ds : Formatter.Dataset) (fs : FileSystem)
       (mainRid : String) (fi : Nat) (b : String) (mainRows : List (List String)),
      hp.main_resource_index = some mainRid →
      hp.file_col_index = some fi →
      Formatter.is_csv_file_column ds.metadata mainRid fi = .ok true →
      Formatter.get_base_path ds.metadata mainRid fi = .ok b →
      ds.resources.lookup mainRid = some mainRows →
      (∃ r ∈ mainRows, fs (joinPath b (cellAt r fi)) = none) →
      abortsWithIOError fs (Formatter.produce hp ds fs)) := by
  constructor
  · intro hp md rows fs fi b hfi hb hbound hmiss
    rcases produce_wide_missing hp md rows fs fi b hfi hb hbound hmiss with
      ⟨q, hq, hqn⟩
    rw [hq]
    exact hqn
  · intro hp ds fs mainRid fi b mainRows hm hf hpred hb hres hmiss
    have hmiss' : ∃ x ∈ mainRows.enum, fs (joinPath b (cellAt x.2 fi)) = none := by
      rcases hmiss with ⟨r, hr, hrn⟩
      rcases mem_enumFrom_of_mem mainRows 0 r hr with ⟨p, hpmem, hpv⟩
      exact ⟨p, hpmem, by rw [hpv]; exact hrn⟩
    rcases longLoop_missing fs b fi mainRows.enum [] hmiss' with ⟨q, hq, hqn⟩
    have : Formatter.produce hp ds fs = .error (.ioError q) := by
      simp only [Formatter.produce, hm, hf, hpred, hb, hres, hq]
    rw [this]
    exact hqn

/-- Witness for C9: the fixture's second series file is missing from
both filesystems and each `produce` aborts with an I/O error at a
missing path. -/
theorem C9_io_error_aborts_witness :
    abortsWithIOError fsOnlyA (Loader.produce hpL ⟨mdL, [["a.csv"], ["b.csv"]]⟩ fsOnlyA) ∧
    abortsWithIOError fsFOnlyA (Formatter.produce hpFE dsF fsFOnlyA) := by
  constructor
  · refine C9_io_error_aborts.1 hpL mdL [["a.csv"], ["b.csv"]] fsOnlyA 0
      "file:///data/" (by decide) (by decide) ?_ ?_
    · intro r hr c hc
      rcases List.mem_cons.1 hr with rfl | hr
      · have he : fsOnlyA (joinPath "file:///data/" (cellAt ["a.csv"] 0)) =
            some csvA := by decide
        rw [he] at hc
        injection hc with hc
        subst hc
        exact ⟨by decide, by decide⟩
      · rcases List.mem_singleton.1 hr with rfl
        have he : fsOnlyA (joinPath "file:///data/" (cellAt ["b.csv"] 0)) =
            none := by decide
        rw [he] at hc
        cases hc
    · exact ⟨["b.csv"], by decide, by decide⟩
  · refine C9_io_error_aborts.2 hpFE dsF fsFOnlyA "1" 0 "file:///ts/"
      [["a.csv", "x"], ["b.csv", "y"]] (by decide) (by decide) (by decide)
      (by decide) (by decide) ?_
    exact ⟨["b.csv", "y"], by decide, by decide⟩

/-- C3: for every main table whose reference column resolves (an
explicit index that validates; inference never resolves, see C5) and
whose referenced series files all load, the long reshape emits, for each
main row in order, one output row per series-file row consisting of the
main row's fields, then the series identifier equal to the main row's
original position, then the series-file row's fields; the output row
count is the sum of the series-file row counts. -/
theorem C3_long_output (hp : Formatter.Hyperparams) (ds : Formatter.Dataset)
    (fs : FileSystem) (mainRid : String) (fi : Nat) (b : String)
    (mainRows : List (List String))
    (hm : hp.main_resource_index = some mainRid)
    (hf : hp.file_col_index = some fi)
    (hpred : Formatter.is_csv_file_column ds.metadata mainRid fi = .ok true)
    (hb : Formatter.get_base_path ds.metadata mainRid fi = .ok b)
    (hres : ds.resources.lookup mainRid = some mainRows)
    (hload : ∀ x ∈ mainRows.enum, ∃ c, fs (joinPath b (cellAt x.2 fi)) = some c) :
    Formatter.produce hp ds fs =
      .ok ⟨"0", (mainRows.enum.map (emittedRows fs b fi)).flatten,
           Formatter.OutputMeta.autoGenerated⟩ ∧
    ((mainRows.enum.map (emittedRows fs b fi)).flatten).length =
      (mainRows.enum.map
        (fun x => (loadedCsvRows fs b (cellAt x.2 fi)).length)).sum ∧
    (∀ x ∈ mainRows.enum, ∀ row ∈ emittedRows fs b fi x,
      row[x.2.length]? = some (Sum.inr x.1)) := by
  refine ⟨produce_long_spec hp ds fs mainRid fi b mainRows hm hf hpred hb hres
    hload, ?_, ?_⟩
  · rw [List.length_flatten, List.map_map]
    refine congrArg List.sum (List.map_congr_left ?_)
    intro x _
    simp [emittedRows]
  · intro x hx row hrow
    simp only [emittedRows, List.mem_map] at hrow
    rcases hrow with ⟨v, hv, rfl⟩
    rw [List.append_assoc, List.getElem?_append_right (by simp)]
    simp

/-- Witness for C3 at the two-row fixture with two two-row series
files: four output rows, each main row's fields followed by its
position and a series-file row. -/
theorem C3_long_output_witness :
    Formatter.produce hpFE dsF fsF =
      .ok ⟨"0",
        [[Sum.inl "a.csv", Sum.inl "x", Sum.inr 0, Sum.inl "0", Sum.inl "10"],
         [Sum.inl "a.csv", Sum.inl "x", Sum.inr 0, Sum.inl "1", Sum.inl "11"],
         [Sum.inl "b.csv", Sum.inl "y", Sum.inr 1, Sum.inl "5", Sum.inl "20"],
         [Sum.inl "b.csv", Sum.inl "y", Sum.inr 1, Sum.inl "7", Sum.inl "21"]],
        Formatter.OutputMeta.autoGenerated⟩ ∧
    (([["a.csv", "x"], ["b.csv", "y"]].enum.map
        (emittedRows fsF "file:///ts/" 0)).flatten).length =
      ([["a.csv", "x"], ["b.csv", "y"]].enum.map
        (fun x => (loadedCsvRows fsF "file:///ts/" (cellAt x.2 0)).length)).sum := by
  have hload : ∀ x ∈ [["a.csv", "x"], ["b.csv", "y"]].enum, ∃ c,
      fsF (joinPath "file:///ts/" (cellAt x.2 0)) = some c := by
    intro x hx
    rcases List.mem_cons.1 hx with rfl | hx
    · exact ⟨csvA, by decide⟩
    · rcases List.mem_singleton.1 hx with rfl
      exact ⟨csvB, by decide⟩
  have h := C3_long_output hpFE dsF fsF "1" 0 "file:///ts/"
    [["a.csv", "x"], ["b.csv", "y"]] (by decide) (by decide) (by decide)
    (by decide) (by decide) hload
  exact ⟨Eq.trans h.1 (by decide), h.2.1⟩

/-- C1 (counterexample): the acceptance check is not equivalent to the
absence of configuration errors in `produce`, and it can throw.  A
loader column that validates but declares no base URI is accepted by
`can_accept` while `produce` raises the missing-base-URI `KeyError` — a
configuration error of the spec's taxonomy, not an I/O error — before
touching any filesystem.  A non-empty column dict without a
`structural_type` entry makes `can_accept` itself raise a `KeyError`.
And the formatter's `can_accept` accepts an inferable configuration
although its `produce` then raises a `TypeError`. -/
theorem C1_counterexample :
    Loader.can_accept mdNB hpL = .ok (some mdNB) ∧
    Loader.produce hpL ⟨mdNB, [["f.csv"]]⟩ fsEmpty =
      .error (.keyError "location_base_uris") ∧
    PyError.isConfigurationError (.keyError "location_base_uris") = true ∧
    PyError.isIOError (.keyError "location_base_uris") = false ∧
    Loader.can_accept mdNS hpL = .error (.keyError "structural_type") ∧
    Formatter.can_accept dmdF hpFI = .ok (some dmdF) ∧
    Formatter.produce hpFI dsF fsEmpty = .error (.typeError
      "find_csv_file_column missing 1 required positional argument: res_id") := by
  decide

/-- C1 (amended): the acceptance check agrees with `produce` exactly as
far as column resolution goes.  For the loader, `can_accept` returns
the metadata iff resolution succeeds, returns `None` iff resolution
raises the invalid-column configuration error, and propagates the same
`KeyError` that resolution would raise; configuration errors raised
after resolution (the missing-base-URI `KeyError`) are not detected.
For the formatter, `produce` with no explicit file column raises a
`TypeError` regardless of what `can_accept` reports. -/
theorem C1_acceptance_amended :
    (∀ (md : Loader.DataMetadata) (hp : Loader.Hyperparams),
      (Loader.can_accept md hp = .ok (some md) ↔
        ∃ fi, Loader.resolveFileColumn md hp = .ok fi) ∧
      (Loader.can_accept md hp = .ok none ↔
        ∃ m, Loader.resolveFileColumn md hp = .error (.invalidArgumentValue m)) ∧
      (∀ e, Loader.can_accept md hp = .error e ↔
        Loader.resolveFileColumn md hp = .error e ∧ ¬ e.isConfigurationError)) ∧
    (∀ (hp : Formatter.Hyperparams) (ds : Formatter.Dataset) (fs : FileSystem)
       (mainRid : String), hp.main_resource_index = some mainRid →
      hp.file_col_index = none →
      Formatter.produce hp ds fs = .error (.typeError
        "find_csv_file_column missing 1 required positional argument: res_id")) := by
  constructor
  · intro md hp
    cases hfc : hp.file_col_index with
    | some fi =>
      cases hic : Loader.is_csv_file_column md fi with
      | error e =>
        have he := loader_pred_error md fi e hic
        subst he
        simp [Loader.can_accept, Loader.resolveFileColumn, hfc, hic,
          PyError.isConfigurationError]
      | ok bv =>
        cases bv with
        | false =>
          simp [Loader.can_accept, Loader.resolveFileColumn, hfc, hic,
            PyError.isConfigurationError]
        | true =>
          simp [Loader.can_accept, Loader.resolveFileColumn, hfc, hic]
    | none =>
      cases hic : Loader.find_csv_file_column md with
      | error e =>
        have he := loader_find_error md e hic
        subst he
        simp [Loader.can_accept, Loader.resolveFileColumn, hfc, hic,
          PyError.isConfigurationError]
      | ok o =>
        cases o with
        | none =>
          simp [Loader.can_accept, Loader.resolveFileColumn, hfc, hic,
            PyError.isConfigurationError]
        | some fi =>
          simp [Loader.can_accept, Loader.resolveFileColumn, hfc, hic]
  · intro hp ds fs mainRid hm hfc
    simp [Formatter.produce, hm, hfc]

/-- Witness for C1 (amended): the formatter fixture with inference
raises the `TypeError`, and the loader fixture's acceptance succeeds
because resolution does. -/
theorem C1_acceptance_amended_witness :
    Formatter.produce hpFI dsF fsF = .error (.typeError
      "find_csv_file_column missing 1 required positional argument: res_id") ∧
    Loader.can_accept mdL hpL = .ok (some mdL) :=
  ⟨C1_acceptance_amended.2 hpFI dsF fsF "1" rfl rfl,
   (C1_acceptance_amended.1 mdL hpL).1.mpr ⟨0, by decide⟩⟩

/-- C4 (counterexample): the code's media-type check is the reverse
subset of the claim's — a column declaring csv and json media types is
accepted although its media types are not a subset of the csv
singleton — and the formatter's reference predicate needs only a
non-empty intersection of tags, accepting a column whose only tag is
Text, without the filename tag the claim requires. -/
theorem C4_counterexample :
    Loader.is_csv_file_column [cmMultiMedia] 0 = .ok true ∧
    specReferencePredicate cmMultiMedia = false ∧
    Formatter.is_csv_file_reference [("0", [cmTextOnly])] "0" 0 = .ok true ∧
    specReferencePredicate cmTextOnly = false := by
  decide

/-- C4 (amended): the loader predicate accepts a column iff its
structural type is string, its semantic tags contain both the filename
and the time-series tag, and csv is among its declared media types; the
formatter's reference predicate accepts iff the structural type is
string, the tag set intersects the primitive's four-tag list, and csv
is among the declared media types. -/
theorem C4_predicate_characterization :
    (∀ (md : Loader.DataMetadata) (i : Nat),
      Loader.is_csv_file_column md i = .ok true ↔
        ((Loader.queryColumn md i).structural_type = some PyType.str ∧
         tFileName ∈ (Loader.queryColumn md i).semantic_types.getD [] ∧
         tTimeseries ∈ (Loader.queryColumn md i).semantic_types.getD [] ∧
         "text/csv" ∈ (Loader.queryColumn md i).media_types.getD [])) ∧
    (∀ (dmd : Formatter.DatasetMetadata) (rid : String) (i : Nat),
      Formatter.is_csv_file_reference dmd rid i = .ok true ↔
        ((Formatter.queryColumn dmd rid i).structural_type = some PyType.str ∧
         (∃ s ∈ (Formatter.queryColumn dmd rid i).semantic_types.getD [],
            s ∈ Formatter.semantic_types) ∧
         "text/csv" ∈ (Formatter.queryColumn dmd rid i).media_types.getD [])) := by
  constructor
  · intro md i
    by_cases he : (Loader.queryColumn md i).isEmptyDict
    · have hst := structural_none_of_emptyDict _ he
      simp [Loader.is_csv_file_column, he, hst]
    · cases hst : (Loader.queryColumn md i).structural_type with
      | none => simp [Loader.is_csv_file_column, he, hst]
      | some t =>
        cases t with
        | other => simp [Loader.is_csv_file_column, he, hst]
        | str =>
          simp [Loader.is_csv_file_column, he, hst, Loader.semantic_types,
            Loader.media_types, tFileName, tTimeseries, and_assoc]
  · intro dmd rid i
    by_cases he : (Formatter.queryColumn dmd rid i).isEmptyDict
    · have hst := structural_none_of_emptyDict _ he
      simp [Formatter.is_csv_file_reference, he, hst]
    · cases hst : (Formatter.queryColumn dmd rid i).structural_type with
      | none => simp [Formatter.is_csv_file_reference, he, hst]
      | some t =>
        cases t with
        | other => simp [Formatter.is_csv_file_reference, he, hst]
        | str =>
          simp [Formatter.is_csv_file_reference, he, hst, Formatter.media_types]

/-- Witness for C4 (amended): the fixture file column satisfies the
characterization, so the loader predicate accepts it. -/
theorem C4_predicate_characterization_witness :
    Loader.is_csv_file_column [cmFile] 0 = .ok true :=
  (C4_predicate_characterization.1 [cmFile] 0).mpr
    ⟨by decide, by decide, by decide, by decide⟩

/-- C5: column resolution is correct for the loader — an explicit index
failing the predicate raises the configuration error for every
filesystem (no file is opened), and an inference over columns none of
which matches raises the no-column configuration error — but the
formatter's inference path never scans at all: it raises a `TypeError`
from the missing `res_id` argument even though its scan, called as
`can_accept` calls it, would find the file column. -/
theorem C5_resolution_and_inference_bug :
    Formatter.produce hpFI dsF fsF = .error (.typeError
      "find_csv_file_column missing 1 required positional argument: res_id") ∧
    Formatter.find_csv_file_column dsF.metadata "1" = .ok (some 0) ∧
    Loader.produce ⟨some 0, 0, 1⟩ ⟨[cmPlain], [["a.csv"]]⟩ fsL =
      .error (.invalidArgumentValue "column does not contain csv file names") ∧
    Loader.produce ⟨none, 0, 1⟩ ⟨[cmPlain], [["a.csv"]]⟩ fsL =
      .error (.invalidArgumentValue "no column contains csv file names") := by
  decide

/-- C7 (counterexample): the path resolvers do not follow the claim's
conditional indirection.  The formatter's resolver raises a
`KeyError` on a column that declares its own base URI but carries no
foreign key — instead of returning that base URI — and the loader's
resolver returns the column's own base URI even when the column does
carry a foreign-key link. -/
theorem C7_counterexample :
    Formatter.get_base_path dmdOwn "1" 0 = .error (.keyError "foreign_key") ∧
    (Formatter.queryColumn dmdOwn "1" 0).location_base_uris =
      some ["file:///own/"] ∧
    Loader.getBasePath mdOwnFk 0 = .ok "file:///own/" ∧
    (Loader.queryColumn mdOwnFk 0).foreign_key = some (some ⟨"9", 3⟩) := by
  decide

/-- C7 (amended): the loader's resolver returns the first base URI
declared on the reference column itself and never follows a foreign
key; the formatter's resolver unconditionally dereferences the foreign
key — `KeyError` when absent — and returns the first base URI declared
on the referenced column; a missing or empty base-URI annotation fails
with `KeyError` or `IndexError`; and the failure is independent of the
filesystem: `produce` raises it for every filesystem, before any file
is opened. -/
theorem C7_base_path_amended :
    (∀ (md : Loader.DataMetadata) (fi : Nat) (b : String) (rest : List String),
      (Loader.queryColumn md fi).location_base_uris = some (b :: rest) →
      Loader.getBasePath md fi = .ok b) ∧
    (∀ (md : Loader.DataMetadata) (fi : Nat),
      (Loader.queryColumn md fi).location_base_uris = none →
      Loader.getBasePath md fi = .error (.keyError "location_base_uris")) ∧
    (∀ (md : Loader.DataMetadata) (fi : Nat),
      (Loader.queryColumn md fi).location_base_uris = some [] →
      Loader.getBasePath md fi = .error .indexError) ∧
    (∀ (dmd : Formatter.DatasetMetadata) (rid : String) (i : Nat)
       (fk : ForeignKey) (b : String) (rest : List String),
      (Formatter.queryColumn dmd rid i).foreign_key = some (some fk) →
      (Formatter.queryColumn dmd fk.resource_id fk.column_index).location_base_uris =
        some (b :: rest) →
      Formatter.get_base_path dmd rid i = .ok b) ∧
    (∀ (dmd : Formatter.DatasetMetadata) (rid : String) (i : Nat),
      (Formatter.queryColumn dmd rid i).foreign_key = none →
      Formatter.get_base_path dmd rid i = .error (.keyError "foreign_key")) ∧
    (∀ (hp : Loader.Hyperparams) (md : Loader.DataMetadata)
       (rows : List (List String)) (fs : FileSystem) (fi : Nat),
      Loader.resolveFileColumn md hp = .ok fi →
      (Loader.queryColumn md fi).location_base_uris = none →
      Loader.produce hp ⟨md, rows⟩ fs = .error (.keyError "location_base_uris")) := by
  refine ⟨?_, ?_, ?_, ?_, ?_, ?_⟩
  · intro md fi b rest h
    simp [Loader.getBasePath, h]
  · intro md fi h
    simp [Loader.getBasePath, h]
  · intro md fi h
    simp [Loader.getBasePath, h]
  · intro dmd rid i fk b rest hfk hb
    simp [Formatter.get_base_path, hfk, hb]
  · intro dmd rid i hfk
    simp [Formatter.get_base_path, hfk]
  · intro hp md rows fs fi hfi h
    have hb : Loader.getBasePath md fi = .error (.keyError "location_base_uris") := by
      simp [Loader.getBasePath, h]
    simp [Loader.produce, hfi, hb]

/-- Witness for C7 (amended) at the fixtures: the loader resolves its
column's own base URI, the formatter resolves the referenced column's
base URI, and a validating column with no base URI makes `produce` fail
with the `KeyError` even on a filesystem holding all files. -/
theorem C7_base_path_amended_witness :
    Loader.getBasePath mdL 0 = .ok "file:///data/" ∧
    Formatter.get_base_path dmdF "1" 0 = .ok "file:///ts/" ∧
    Loader.produce hpL ⟨mdNB, [["a.csv"]]⟩ fsL =
      .error (.keyError "location_base_uris") :=
  ⟨C7_base_path_amended.1 mdL 0 "file:///data/" [] (by decide),
   C7_base_path_amended.2.2.2.1 dmdF "1" 0 ⟨"0", 0⟩ "file:///ts/" []
     (by decide) (by decide),
   C7_base_path_amended.2.2.2.2.2 hpL mdNB [["a.csv"]] fsL 0
     (by decide) (by decide)⟩

/-- C8: the long reshape computes the joined column metadata of the two
resources but discards it — the returned dataset carries auto-generated
metadata, not the union, and no series-identifier column metadata is
ever added (`timeseries_formatter.py:166,178-179`). -/
theorem C8_joined_metadata_discarded :
    Formatter.produce hpFE dsF fsF =
      .ok ⟨"0",
        [[Sum.inl "a.csv", Sum.inl "x", Sum.inr 0, Sum.inl "0", Sum.inl "10"],
         [Sum.inl "a.csv", Sum.inl "x", Sum.inr 0, Sum.inl "1", Sum.inl "11"],
         [Sum.inl "b.csv", Sum.inl "y", Sum.inr 1, Sum.inl "5", Sum.inl "20"],
         [Sum.inl "b.csv", Sum.inl "y", Sum.inr 1, Sum.inl "7", Sum.inl "21"]],
        Formatter.OutputMeta.autoGenerated⟩ ∧
    Formatter.joinedMetadata dsF.metadata "1" "0" =
      [cmMainFile, cmPlain, cmRefCol] ∧
    Formatter.OutputMeta.autoGenerated ≠
      Formatter.OutputMeta.explicitMeta
        (Formatter.joinedMetadata dsF.metadata "1" "0") := by
  decide

end TSL
